import Mathlib

/-!
Verification of the TurtleBench code-to-image rendering pipeline
(`utils/code_to_image.py`, `utils/code_to_image_svg.py`, `utils/sandbox.py`).

Program text is modelled as `List Char`.  Python's `str.replace` (replace
every non-overlapping occurrence, scanning left to right) is modelled by
`strReplace`; all patterns appearing in the source are non-empty, and the
model is faithful for non-empty patterns.

The subprocess-running functions are modelled relative to a small world
describing the outcome of the child process and the state of the
filesystem; the pure control flow of the Python functions (which branch is
taken, what is returned, which exceptions escape, which files remain) is
translated directly from the source.
-/

/-- Outcome of one `subprocess.run` call: the child exited with a return
code, the 20-second timeout fired (`subprocess.TimeoutExpired`), or some
other exception was raised while launching/running (e.g. the interpreter
executable is missing). -/
inductive RunOutcome where
  | exited (code : Int)
  | timedOut
  | raisedOther
  deriving DecidableEq, Repr

/-- A Python exception escaping a modelled function. -/
inductive PyExn where
  | timeoutExpired
  | other
  deriving DecidableEq, Repr

/-- Fuel-indexed scan implementing Python `str.replace` for a non-empty
pattern: at each position, if the pattern matches, emit the replacement and
skip past the match, otherwise emit one character and advance.  The fuel is
consumed one unit per step; `strReplace` supplies fuel equal to the input
length, which suffices since every step consumes at least one character. -/
def replaceFuel (pat rep : List Char) : Nat → List Char → List Char
  | 0, s => s
  | _ + 1, [] => []
  | fuel + 1, c :: cs =>
    if pat.isPrefixOf (c :: cs) && !pat.isEmpty then
      rep ++ replaceFuel pat rep fuel ((c :: cs).drop pat.length)
    else
      c :: replaceFuel pat rep fuel cs

/-- Python `s.replace(pat, rep)` for non-empty `pat` (every pattern used by
the source transformer is non-empty). -/
def strReplace (s pat rep : List Char) : List Char :=
  replaceFuel pat rep s.length s

/-- Boolean substring test (Python `pat in s`): `containsSub s pat = true`
iff `pat` occurs contiguously in `s`. -/
def containsSub : List Char → List Char → Bool
  | [], pat => pat.isEmpty
  | c :: cs, pat => pat.isPrefixOf (c :: cs) || containsSub cs pat

/-- The ordered substitution table of `transform_turtle_to_svg`
(`utils/code_to_image_svg.py`, lines 12-25), kept in source order. -/
def transformations : List (List Char × List Char) :=
  [ (("import turtle").data, ("# import turtle").data),
    (("from turtle import").data, ("# from turtle import").data),
    (("t = turtle.Turtle()").data, ("# t = turtle.Turtle()").data),
    (("= turtle.Turtle()").data, ("= turtle.Turtle()").data),
    (("turtle.Turtle()").data, ("turtle.Turtle()").data),
    (("turtle.").data, ("t.").data),
    ((".done()").data, ("# .done()").data),
    ((".pensize(").data, (".width(").data) ]

/-- Model of `transform_turtle_to_svg` (`utils/code_to_image_svg.py`,
lines 9-31): fold the ordered replacement table over the input, exactly as
the Python `for old, new in transformations: transformed =
transformed.replace(old, new)` loop does. -/
def transform_turtle_to_svg (code : List Char) : List Char :=
  transformations.foldl (fun acc pr => strReplace acc pr.1 pr.2) code

/-- The fixed header of the assembled headless script (`pre_code` in
`execute_svg_code`, `utils/code_to_image_svg.py` lines 38-45). -/
def pre_code : List Char :=
  ("from svg_turtle import SvgTurtle\nimport cairosvg\nimport os\n\n# Create SVG turtle instance\nt = SvgTurtle(800, 600)\n\n").data

/-- The fixed footer of the assembled headless script (`post_code` in
`execute_svg_code`, `utils/code_to_image_svg.py` lines 47-60): an f-string
interpolating the save path and the task name, modelled by concatenation
at exactly the two interpolation points. -/
def post_code (save_path task_name : List Char) : List Char :=
  ("\n\n# Save SVG to PNG\nsvg_data = t.to_svg()\npng_file = os.path.join(\"").data ++
    save_path ++
    ("\", f\"").data ++
    task_name ++
    (".png\")\n\n# Convert SVG to PNG using cairosvg\ntry:\n    cairosvg.svg2png(bytestring=svg_data, write_to=png_file, background_color=\"white\")\n    print(f\"Successfully saved PNG to: \x7bpng_file\x7d\")\nexcept Exception as e:\n    print(f\"Error converting SVG to PNG: \x7be\x7d\")\n\n").data

/-- Model of `execute_svg_code` (`utils/code_to_image_svg.py`, lines
34-63): header, then the transformed user code inserted verbatim, then the
footer interpolated with the save path and task name. -/
def execute_svg_code (code save_path task_name : List Char) : List Char :=
  pre_code ++ transform_turtle_to_svg code ++ post_code save_path task_name

/-- World for one call of `code_to_image_svg`: the outcome of its child
process and whether the PNG file exists afterwards at
`os.path.join(save_path, task_name + ".png")`, together with that file's
byte size (the source never reads the size; it is carried so that
size-related claims can be stated). -/
structure SvgWorld where
  run : RunOutcome
  pngExists : Bool
  pngSize : Nat
  deriving DecidableEq, Repr

/-- Result of `code_to_image_svg`: the returned boolean and whether the
temporary script `svg_file_path_{task_name}.py` still exists on return. -/
structure SvgResult where
  ok : Bool
  scriptExists : Bool
  deriving DecidableEq, Repr

/-- Model of `code_to_image_svg` (`utils/code_to_image_svg.py`, lines
66-116).  The assembly step (`execute_svg_code`) is total on string input,
so its `try` never fires; the script file is written, the child is run
with `timeout=20` and captured output, and then: on completion the script
is removed when `remove_code_file` is set, and the call returns `True` iff
the return code is 0 and the PNG exists (`os.path.exists`; the size is not
consulted); on `subprocess.TimeoutExpired` or any other exception the
script is removed when `remove_code_file` is set and `False` is returned.
No exception escapes. -/
def code_to_image_svg (remove_code_file : Bool) (w : SvgWorld) : SvgResult :=
  match w.run with
  | RunOutcome.exited c => ⟨(c == 0) && w.pngExists, !remove_code_file⟩
  | RunOutcome.timedOut => ⟨false, !remove_code_file⟩
  | RunOutcome.raisedOther => ⟨false, !remove_code_file⟩

/-- World for the native-fallback half of `code_to_image`
(`utils/code_to_image.py`, lines 17-51): whether
`insert_pensize_and_hideturtle` raises, whether
`find_screen_variable_name` raises (both are imported from
`utils.code_analysis`, which is absent from the sources; each call sits
inside its own `try/except`, so only raise-or-return matters here), and
the outcome of the fallback child process. -/
structure NativeWorld where
  insertRaises : Bool
  findRaises : Bool
  run : RunOutcome
  deriving DecidableEq, Repr

deriving instance DecidableEq for Except

/-- Result of the native-fallback half: either a returned boolean or an
escaped exception, plus whether the temporary script
`file_path_{task_name}.py` still exists on return. -/
structure NativeOutcome where
  result : Except PyExn Bool
  scriptExists : Bool
  deriving DecidableEq, Repr

/-- Model of the native-fallback half of `code_to_image`
(`utils/code_to_image.py`, lines 17-51).  If either helper raises, `False`
is returned before the script file is created.  Otherwise the script is
written and the child is run via `subprocess.run(..., env=env, timeout=20)`
with no surrounding `try`: a timeout or launch failure escapes as an
exception with the script left on disk; on completion the script is
removed and `True` returned exactly when the return code is 0 (no output
file is checked). -/
def native_fallback (w : NativeWorld) : NativeOutcome :=
  if w.insertRaises then ⟨Except.ok false, false⟩
  else if w.findRaises then ⟨Except.ok false, false⟩
  else
    match w.run with
    | RunOutcome.exited c =>
        if c == 0 then ⟨Except.ok true, false⟩ else ⟨Except.ok false, true⟩
    | RunOutcome.timedOut => ⟨Except.error PyExn.timeoutExpired, true⟩
    | RunOutcome.raisedOther => ⟨Except.error PyExn.other, true⟩

/-- Full outcome of one `code_to_image` call: the returned boolean or
escaped exception, whether the native fallback was entered, and whether
each temporary script still exists on return. -/
structure COIOutcome where
  result : Except PyExn Bool
  nativeInvoked : Bool
  svgScriptExists : Bool
  nativeScriptExists : Bool
  deriving DecidableEq, Repr

/-- Model of the orchestrator `code_to_image` (`utils/code_to_image.py`,
lines 9-51): first `code_to_image_svg(piece_of_code, task_name,
save_path)` — whose `remove_code_file` parameter defaults to `True` — and,
only if that returned `False`, the native fallback. -/
def code_to_image (sw : SvgWorld) (nw : NativeWorld) : COIOutcome :=
  let s := code_to_image_svg true sw
  if s.ok then
    ⟨Except.ok true, false, s.scriptExists, false⟩
  else
    let n := native_fallback nw
    ⟨n.result, true, s.scriptExists, n.scriptExists⟩

/-- Whether a modelled call ended in an escaped exception rather than a
returned boolean. -/
def isException : Except PyExn Bool → Bool
  | Except.error _ => true
  | Except.ok _ => false

/-- Environment preparation on the native-fallback path
(`utils/code_to_image.py`, lines 36-38): copy `os.environ` and set
`DISPLAY` to `":99"` only when it is absent.  An environment is modelled
as a partial map from variable names to values. -/
def native_env (env : String → Option String) : String → Option String :=
  if env "DISPLAY" = none then
    fun k => if k = "DISPLAY" then some ":99" else env k
  else env

/-- Environment used by the headless path (`utils/code_to_image_svg.py`,
lines 83-88): `subprocess.run` is called without an `env` argument, so the
child inherits the parent's environment unchanged. -/
def headless_env (env : String → Option String) : String → Option String :=
  env

/-- A concrete parent environment without `DISPLAY`, used as a witness. -/
def sampleEnv : String → Option String :=
  fun k => if k = "PATH" then some "/usr/bin" else none

/-- A concrete parent environment with `DISPLAY` already set, used as a
witness. -/
def sampleEnvDisplay : String → Option String :=
  fun k => if k = "DISPLAY" then some ":0" else none

/-- The concrete drawing script of claim C10. -/
def c10_input : List Char :=
  ("t = turtle.Turtle(); t.forward(100); t.right(90); t.forward(50); turtle.done()").data

/-- What `transform_turtle_to_svg` produces on `c10_input` (traced through
the eight replacements of the table). -/
def c10_output : List Char :=
  ("# t = t.Turtle(); t.forward(100); t.right(90); t.forward(50); t# .done()").data

lemma replaceFuel_of_not_contains (pat rep : List Char) :
    ∀ fuel s, containsSub s pat = false → replaceFuel pat rep fuel s = s := by
  intro fuel
  induction fuel with
  | zero => intro s _; rfl
  | succ n ih =>
    intro s h
    cases s with
    | nil => rfl
    | cons c cs =>
      have h' : pat.isPrefixOf (c :: cs) = false ∧ containsSub cs pat = false := by
        simpa [containsSub] using h
      simp [replaceFuel, h'.1, ih cs h'.2]

/-- Unmatched patterns are left untouched: when `pat` does not occur in
`s`, `strReplace` is the identity. -/
lemma strReplace_of_not_contains (s pat rep : List Char)
    (h : containsSub s pat = false) : strReplace s pat rep = s :=
  replaceFuel_of_not_contains pat rep s.length s h

lemma code_to_image_svg_scriptExists (remove_code_file : Bool) (w : SvgWorld) :
    (code_to_image_svg remove_code_file w).scriptExists = !remove_code_file := by
  cases hw : w.run <;> simp [code_to_image_svg, hw]

lemma isException_native (w : NativeWorld) :
    isException (native_fallback w).result = true ↔
      (w.insertRaises = false ∧ w.findRaises = false ∧
        (w.run = RunOutcome.timedOut ∨ w.run = RunOutcome.raisedOther)) := by
  obtain ⟨ir, fr, run⟩ := w
  cases ir with
  | true => simp [native_fallback, isException]
  | false =>
    cases fr with
    | true => simp [native_fallback, isException]
    | false =>
      cases run with
      | exited c =>
        cases hc : c == 0 <;> simp [native_fallback, isException, hc]
      | timedOut => simp [native_fallback, isException]
      | raisedOther => simp [native_fallback, isException]

/-- C5: for every input string that contains none of the transformer's
source patterns, `transform_turtle_to_svg` returns its input unchanged
(the transform is a fixed point on already-headless-compatible scripts). -/
theorem c5_transform_fixed_point (s : List Char)
    (h : ∀ pr ∈ transformations, containsSub s pr.1 = false) :
    transform_turtle_to_svg s = s := by
  simp only [transformations, List.mem_cons, List.not_mem_nil, or_false,
    forall_eq_or_imp, forall_eq] at h
  obtain ⟨h1, h2, h3, h4, h5, h6, h7, h8⟩ := h
  simp only [transform_turtle_to_svg, transformations, List.foldl]
  rw [strReplace_of_not_contains _ _ _ h1, strReplace_of_not_contains _ _ _ h2,
    strReplace_of_not_contains _ _ _ h3, strReplace_of_not_contains _ _ _ h4,
    strReplace_of_not_contains _ _ _ h5, strReplace_of_not_contains _ _ _ h6,
    strReplace_of_not_contains _ _ _ h7, strReplace_of_not_contains _ _ _ h8]

/-- Witness for C5 at the pattern-free script `print(hello)`. -/
theorem c5_transform_fixed_point_witness :
    (∀ pr ∈ transformations, containsSub (("print(hello)").data) pr.1 = false) ∧
      transform_turtle_to_svg (("print(hello)").data) = ("print(hello)").data :=
  ⟨by decide, c5_transform_fixed_point (("print(hello)").data) (by decide)⟩

/-- C6: `transform_turtle_to_svg` is a pure total function: it is defined
for every input (totality of the Lean definition), it applies the eight
literal replacements of the table in the listed source order, it leaves
any unmatched pattern untouched, and it is deterministic (equal inputs
give equal outputs). -/
theorem c6_transform_total_deterministic (s : List Char) :
    transform_turtle_to_svg s =
      strReplace (strReplace (strReplace (strReplace (strReplace (strReplace (strReplace (strReplace
        s ("import turtle").data ("# import turtle").data)
        ("from turtle import").data ("# from turtle import").data)
        ("t = turtle.Turtle()").data ("# t = turtle.Turtle()").data)
        ("= turtle.Turtle()").data ("= turtle.Turtle()").data)
        ("turtle.Turtle()").data ("turtle.Turtle()").data)
        ("turtle.").data ("t.").data)
        (".done()").data ("# .done()").data)
        (".pensize(").data (".width(").data ∧
      (∀ t, s = t → transform_turtle_to_svg s = transform_turtle_to_svg t) ∧
      ∀ pat rep, containsSub s pat = false → strReplace s pat rep = s := by
  refine ⟨?_, ?_, ?_⟩
  · simp only [transform_turtle_to_svg, transformations, List.foldl]
  · intro t ht; rw [ht]
  · intro pat rep h; exact strReplace_of_not_contains s pat rep h

/-- Witness for C6: the unmatched-pattern clause applied at a concrete
input and pattern. -/
theorem c6_transform_total_deterministic_witness :
    containsSub (("hello world").data) (("zzz").data) = false ∧
      strReplace (("hello world").data) (("zzz").data) (("q").data) =
        ("hello world").data :=
  ⟨by decide,
    (c6_transform_total_deterministic (("hello world").data)).2.2
      (("zzz").data) (("q").data) (by decide)⟩

/-- C7: for every user code string the assembler produces exactly the
fixed header, then the transformed user code verbatim, then the fixed
footer; for the empty input (the only falsy Python string) the assembled
script is header plus footer only — a blank canvas — and nothing raises
(the Lean model is total). -/
theorem c7_assembler_exact (code save_path task_name : List Char) :
    execute_svg_code code save_path task_name =
        pre_code ++ transform_turtle_to_svg code ++ post_code save_path task_name ∧
      execute_svg_code [] save_path task_name =
        pre_code ++ post_code save_path task_name := by
  refine ⟨rfl, ?_⟩
  show pre_code ++ transform_turtle_to_svg [] ++ post_code save_path task_name =
    pre_code ++ post_code save_path task_name
  have h : transform_turtle_to_svg [] = [] := by decide
  rw [h, List.append_nil]

set_option maxHeartbeats 2000000 in
/-- C10: on the concrete one-line script of the claim, the transformer
comments out the whole line — the result is exactly `c10_output`, which
begins with the two characters `#` and a space, so every drawing command
of the input sits inside a Python comment in the assembled script. -/
theorem c10_transform_comments_out :
    transform_turtle_to_svg c10_input = c10_output ∧
      c10_output.take 2 = ('#' :: ' ' :: []) := by
  refine ⟨?_, by decide⟩
  rfl

/-- C4: `code_to_image` enters the native fallback exactly when the
headless attempt returned failure, and when the headless attempt succeeds
it returns `True` with the fallback never invoked (the outcome does not
depend on the native world at all). -/
theorem c4_headless_first (sw : SvgWorld) (nw : NativeWorld) :
    ((code_to_image sw nw).nativeInvoked = !(code_to_image_svg true sw).ok) ∧
      ((code_to_image_svg true sw).ok = true →
        code_to_image sw nw = ⟨Except.ok true, false, false, false⟩) := by
  constructor
  · by_cases h : (code_to_image_svg true sw).ok <;> simp [code_to_image, h]
  · intro h
    simp [code_to_image, h, code_to_image_svg_scriptExists]

/-- Witness for C4: a headless success with a native world that would time
out; the fallback is never consulted and the call returns `True`. -/
theorem c4_headless_first_witness :
    code_to_image ⟨RunOutcome.exited 0, true, 10⟩ ⟨false, false, RunOutcome.timedOut⟩ =
      ⟨Except.ok true, false, false, false⟩ :=
  (c4_headless_first ⟨RunOutcome.exited 0, true, 10⟩
    ⟨false, false, RunOutcome.timedOut⟩).2 (by decide)

/-- Counterexample to C1: when the headless child exits non-zero and the
native fallback's interpreter launch raises, the exception escapes
`code_to_image` instead of a boolean being returned. -/
theorem c1_counterexample :
    (code_to_image ⟨RunOutcome.exited 1, false, 0⟩
        ⟨false, false, RunOutcome.raisedOther⟩).result =
      Except.error PyExn.other := by decide

/-- C1 (amended): `code_to_image` propagates an exception exactly when the
headless attempt returns `False`, both fallback helper calls return
normally, and the fallback child times out or its launch raises; on every
other path a boolean is returned. -/
theorem c1_exception_characterization (sw : SvgWorld) (nw : NativeWorld) :
    isException (code_to_image sw nw).result = true ↔
      ((code_to_image_svg true sw).ok = false ∧ nw.insertRaises = false ∧
        nw.findRaises = false ∧
        (nw.run = RunOutcome.timedOut ∨ nw.run = RunOutcome.raisedOther)) := by
  by_cases h : (code_to_image_svg true sw).ok = true
  · simp [code_to_image, h, isException]
  · rw [Bool.not_eq_true] at h
    simp [code_to_image, h, isException_native]

/-- Counterexample to C2: when the headless child exits non-zero and the
native fallback's child exceeds the 20-second budget, the call does not
return `False` — `subprocess.TimeoutExpired` escapes — and the fallback's
temporary script `file_path_{task_name}.py` is left on disk. -/
theorem c2_counterexample :
    (code_to_image ⟨RunOutcome.exited 1, false, 0⟩
          ⟨false, false, RunOutcome.timedOut⟩).result =
        Except.error PyExn.timeoutExpired ∧
      (code_to_image ⟨RunOutcome.exited 1, false, 0⟩
          ⟨false, false, RunOutcome.timedOut⟩).nativeScriptExists = true := by
  decide

/-- C2 (amended): a timeout on the headless path makes `code_to_image_svg`
return `False` with its temporary script removed; a timeout on the native
fallback path instead propagates `subprocess.TimeoutExpired` out of
`code_to_image` and leaves the fallback's temporary script on disk. -/
theorem c2_timeout_behavior (sw : SvgWorld) (nw : NativeWorld)
    (hs : sw.run = RunOutcome.timedOut) (hn : nw.run = RunOutcome.timedOut)
    (hir : nw.insertRaises = false) (hfr : nw.findRaises = false) :
    code_to_image_svg true sw = ⟨false, false⟩ ∧
      (code_to_image sw nw).result = Except.error PyExn.timeoutExpired ∧
      (code_to_image sw nw).nativeScriptExists = true := by
  have h1 : code_to_image_svg true sw = ⟨false, false⟩ := by
    simp [code_to_image_svg, hs]
  refine ⟨h1, ?_, ?_⟩ <;>
    simp [code_to_image, h1, native_fallback, hn, hir, hfr]

/-- Witness for C2 (amended) with both children timing out. -/
theorem c2_timeout_behavior_witness :
    code_to_image_svg true ⟨RunOutcome.timedOut, false, 0⟩ = ⟨false, false⟩ ∧
      (code_to_image ⟨RunOutcome.timedOut, false, 0⟩
          ⟨false, false, RunOutcome.timedOut⟩).result =
        Except.error PyExn.timeoutExpired ∧
      (code_to_image ⟨RunOutcome.timedOut, false, 0⟩
          ⟨false, false, RunOutcome.timedOut⟩).nativeScriptExists = true :=
  c2_timeout_behavior ⟨RunOutcome.timedOut, false, 0⟩
    ⟨false, false, RunOutcome.timedOut⟩ rfl rfl rfl rfl

/-- Counterexample to C3: the headless path reports success for a child
that exited 0 when the PNG merely exists, even at byte size 0, and the
native path reports success on exit code 0 alone, with no PNG present at
all — so exit code 0 is sufficient there and the size is never consulted. -/
theorem c3_counterexample :
    (code_to_image_svg true ⟨RunOutcome.exited 0, true, 0⟩).ok = true ∧
      (native_fallback ⟨false, false, RunOutcome.exited 0⟩).result =
        Except.ok true := by decide

/-- C3 (amended): the headless attempt reports success iff the child
exited 0 and the PNG exists at the expected path (its size is ignored);
the native fallback reports success iff the child exited 0, performing no
output-file check at all. -/
theorem c3_success_characterization (sw : SvgWorld) (nw : NativeWorld)
    (hir : nw.insertRaises = false) (hfr : nw.findRaises = false) :
    ((code_to_image_svg true sw).ok = true ↔
        (sw.run = RunOutcome.exited 0 ∧ sw.pngExists = true)) ∧
      ∀ c, nw.run = RunOutcome.exited c →
        ((native_fallback nw).result = Except.ok true ↔ c = 0) := by
  constructor
  · obtain ⟨run, pe, ps⟩ := sw
    cases run with
    | exited c => simp [code_to_image_svg]
    | timedOut => simp [code_to_image_svg]
    | raisedOther => simp [code_to_image_svg]
  · intro c hc
    by_cases hc0 : c = 0
    · simp [native_fallback, hir, hfr, hc, hc0]
    · have hb : (c == 0) = false := by simpa using hc0
      simp [native_fallback, hir, hfr, hc, hb, hc0]

/-- Witness for C3 (amended): success with an existing PNG of size 5, and
a native child exiting 2 that is not reported as success. -/
theorem c3_success_characterization_witness :
    (code_to_image_svg true ⟨RunOutcome.exited 0, true, 5⟩).ok = true ∧
      ¬(native_fallback ⟨false, false, RunOutcome.exited 2⟩).result =
          Except.ok true :=
  ⟨((c3_success_characterization ⟨RunOutcome.exited 0, true, 5⟩
      ⟨false, false, RunOutcome.exited 2⟩ rfl rfl).1).mpr ⟨rfl, rfl⟩,
    fun h =>
      absurd (((c3_success_characterization ⟨RunOutcome.exited 0, true, 5⟩
        ⟨false, false, RunOutcome.exited 2⟩ rfl rfl).2 2 rfl).mp h) (by decide)⟩

/-- C8: on the native-fallback path the child environment agrees with the
parent on every variable other than `DISPLAY`, keeps `DISPLAY` when the
parent has it, and sets `DISPLAY` to `":99"` exactly when the parent lacks
it; the headless path passes the parent environment through unchanged. -/
theorem c8_env_handling (env : String → Option String) :
    (∀ k, k ≠ "DISPLAY" → native_env env k = env k) ∧
      (env "DISPLAY" = none → native_env env "DISPLAY" = some ":99") ∧
      (∀ v, env "DISPLAY" = some v → native_env env "DISPLAY" = some v) ∧
      headless_env env = env := by
  refine ⟨?_, ?_, ?_, rfl⟩
  · intro k hk
    by_cases h : env "DISPLAY" = none <;> simp [native_env, h, hk]
  · intro h; simp [native_env, h]
  · intro v h; simp [native_env, h]

/-- Witness for C8 on two concrete environments: one without `DISPLAY`
(non-`DISPLAY` variables untouched, `DISPLAY` injected as `":99"`) and one
whose `DISPLAY` is `":0"` and is kept. -/
theorem c8_env_handling_witness :
    native_env sampleEnv "PATH" = sampleEnv "PATH" ∧
      native_env sampleEnv "DISPLAY" = some ":99" ∧
      native_env sampleEnvDisplay "DISPLAY" = some ":0" :=
  ⟨(c8_env_handling sampleEnv).1 "PATH" (by decide),
    (c8_env_handling sampleEnv).2.1 (by decide),
    (c8_env_handling sampleEnvDisplay).2.2.1 ":0" (by decide)⟩

/-- C9: with the default `remove_code_file=True` the headless path always
removes its temporary script — on failure and timeout as well as on
success — while the native fallback removes `file_path_{task_name}.py`
exactly when its child exits with code 0, and keeps it on a timeout. -/
theorem c9_temp_script_cleanup (sw : SvgWorld) (nw : NativeWorld) (c : Int)
    (hir : nw.insertRaises = false) (hfr : nw.findRaises = false) :
    (code_to_image_svg true sw).scriptExists = false ∧
      (nw.run = RunOutcome.exited c →
        ((native_fallback nw).scriptExists = false ↔ c = 0)) ∧
      (nw.run = RunOutcome.timedOut →
        (native_fallback nw).scriptExists = true) := by
  refine ⟨by simp [code_to_image_svg_scriptExists], ?_, ?_⟩
  · intro hc
    by_cases hc0 : c = 0
    · simp [native_fallback, hir, hfr, hc, hc0]
    · have hb : (c == 0) = false := by simpa using hc0
      simp [native_fallback, hir, hfr, hc, hb, hc0]
  · intro hn
    simp [native_fallback, hir, hfr, hn]

/-- Witness for C9: a failing headless run still leaves no script behind,
a native child exiting 2 leaves its script, and a native timeout leaves
its script. -/
theorem c9_temp_script_cleanup_witness :
    (code_to_image_svg true ⟨RunOutcome.exited 1, false, 0⟩).scriptExists = false ∧
      ¬(native_fallback ⟨false, false, RunOutcome.exited 2⟩).scriptExists = false ∧
      (native_fallback ⟨false, false, RunOutcome.timedOut⟩).scriptExists = true :=
  ⟨(c9_temp_script_cleanup ⟨RunOutcome.exited 1, false, 0⟩
      ⟨false, false, RunOutcome.exited 2⟩ 2 rfl rfl).1,
    fun h =>
      absurd (((c9_temp_script_cleanup ⟨RunOutcome.exited 1, false, 0⟩
        ⟨false, false, RunOutcome.exited 2⟩ 2 rfl rfl).2.1 rfl).mp h) (by decide),
    (c9_temp_script_cleanup ⟨RunOutcome.exited 1, false, 0⟩
      ⟨false, false, RunOutcome.timedOut⟩ 0 rfl rfl).2.2 rfl⟩
